import Mathlib

/-!
Shallow embedding of the `botzen` automation wrappers
(`botzen/automation/io/core.py` and `botzen/automation/web/core.py`).

Side effects of the underlying libraries (pyautogui, keyboard, playwright)
are modelled as event traces: each wrapper method returns the value the
Python method returns together with the list of library calls it performs,
in order.  Wall-clock time advances only through `sleep` events, so the
cumulative elapsed time of a run is the sum of its sleep durations.
The screen is an oracle `scr : ℕ → Option Box` giving the result of the
k-th screen query (`pyautogui.locateOnScreen`): `some box` means the
reference image is on screen at that query and `locateOnScreen` returns
`box`; `none` means `locateOnScreen` raises `ImageNotFoundException`.
Unbounded `while True:` loops take a fuel parameter and return `none`
when the fuel runs out before the loop returns.
-/

/-- `pyscreeze.Box(left, top, width, height)`. -/
structure Box where
  left : ℤ
  top : ℤ
  width : ℤ
  height : ℤ
deriving DecidableEq

/-- `pyautogui.center(box)`: `Point(left + width // 2, top + height // 2)`;
Python `//` is floor division, hence `Int.fdiv`. -/
def Box.center (b : Box) : ℤ × ℤ :=
  (b.left + b.width.fdiv 2, b.top + b.height.fdiv 2)

/-- One call into the underlying input-simulation library. -/
inductive IOEvent where
  /-- `time.sleep(t)` -/
  | sleep (t : ℚ)
  /-- `pyautogui.click(x=x, y=y, button=button)` (single click) -/
  | click (x y : Option ℤ) (button : String)
  /-- `pyautogui.click(x=x, y=y, button=button, clicks=n)` -/
  | clickMulti (x y : Option ℤ) (button : String) (n : ℤ)
  /-- `pyautogui.moveTo(p)` -/
  | moveTo (p : ℤ × ℤ)
  /-- one `pyautogui.locateOnScreen(path)` call -/
  | screenQuery
deriving DecidableEq

/-- Cumulative elapsed time of a trace: the sum of its sleep durations. -/
def elapsed : List IOEvent → ℚ
  | [] => 0
  | .sleep t :: rest => t + elapsed rest
  | _ :: rest => elapsed rest

/-- Number of click actions a trace performs; a `clicks=n` call performs
`n` clicks (pyautogui iterates `range(n)`, so a negative `n` clicks 0 times). -/
def clickCount : List IOEvent → ℕ
  | [] => 0
  | .click _ _ _ :: rest => 1 + clickCount rest
  | .clickMulti _ _ _ n :: rest => n.toNat + clickCount rest
  | _ :: rest => clickCount rest

/-- Number of screen queries a trace performs. -/
def queryCount : List IOEvent → ℕ
  | [] => 0
  | .screenQuery :: rest => 1 + queryCount rest
  | _ :: rest => queryCount rest

/-- Every single-click event in the trace is immediately preceded by a
sleep of at least `d` (first argument: the previous event, if any). -/
def clicksWaited (d : ℚ) : Option IOEvent → List IOEvent → Bool
  | _, [] => true
  | prev, .click x y b :: rest =>
    (match prev with
     | some (.sleep t) => decide (d ≤ t)
     | _ => false) && clicksWaited d (some (.click x y b)) rest
  | _, e :: rest => clicksWaited d (some e) rest

/-- `Except` value is a success. -/
def exOk {ε α : Type} : Except ε α → Bool
  | .ok _ => true
  | .error _ => false

/-- `class IOClick` (`io/core.py`), with its constructor defaults. -/
structure IOClick where
  clicks : ℤ := 1
  x : Option ℤ := none
  y : Option ℤ := none
  button : String := "primary"
  interval_wait : ℚ := 0
deriving DecidableEq

/-- `IOClick.wait(t)`: sets the delay before each click. -/
def IOClick.wait (c : IOClick) (t : ℚ) : IOClick :=
  { c with interval_wait := t }

/-- `IOClick.repeat(clicks)`: `assert clicks != 0` then store the count.
A failed Python `assert` is modelled as `Except.error`. -/
def IOClick.repeat (c : IOClick) (clicks : ℤ) : Except String IOClick :=
  if clicks = 0 then .error "Cannot click 0 times"
  else .ok { c with clicks := clicks }

/-- The `for _ in range(clicks): time.sleep(w); pyautogui.click(...)` loop
of `IOClick.run`; `range` of a non-positive integer is empty. -/
def clickLoop : ℕ → ℚ → Option ℤ → Option ℤ → String → List IOEvent
  | 0, _, _, _, _ => []
  | n + 1, w, x, y, b => .sleep w :: .click x y b :: clickLoop n w x y b

/-- `IOClick.run()`: with no interval a single `pyautogui.click(..., clicks=n)`
call; otherwise one sleep-then-click per loop iteration. -/
def IOClick.run (c : IOClick) : List IOEvent :=
  if c.interval_wait = 0 then
    [.clickMulti c.x c.y c.button c.clicks]
  else
    clickLoop c.clicks.toNat c.interval_wait c.x c.y c.button

/-- `class IOPixel` (`io/core.py`). -/
structure IOPixel where
  x : Option ℤ := none
  y : Option ℤ := none
  rgb : Option (ℤ × ℤ × ℤ) := none
deriving DecidableEq

/-- `IOPixel.set_rgb(r, g, b)`: three range asserts, then store the triple. -/
def IOPixel.set_rgb (p : IOPixel) (r g b : ℤ) : Except String IOPixel :=
  if ¬(0 ≤ r ∧ r ≤ 255) then .error "Invalid red value"
  else if ¬(0 ≤ g ∧ g ≤ 255) then .error "Invalid green value"
  else if ¬(0 ≤ b ∧ b ≤ 255) then .error "Invalid blue value"
  else .ok { p with rgb := some (r, g, b) }

/-- `class IOImage` (`io/core.py`), with its constructor defaults
(`timeout = -1` is the sentinel for "no timeout configured"). -/
structure IOImage where
  path : String
  wait_for : Bool := false
  timeout : ℚ := -1
  tolerance : ℤ := 0
  place_mouse : Bool := false
deriving DecidableEq

/-- `IOImage.check_for()`. -/
def IOImage.check_for (img : IOImage) : IOImage :=
  { img with wait_for := false }

/-- `IOImage.set_timeout(timeout)`. -/
def IOImage.set_timeout (img : IOImage) (t : ℚ) : IOImage :=
  { img with timeout := t }

/-- `IOImage.place_mouse_over()`: sets the `place_mouse` flag. -/
def IOImage.place_mouse_over (img : IOImage) : IOImage :=
  { img with place_mouse := true }

/-- `IOImage.set_tolerance(tolerance)`. -/
def IOImage.set_tolerance (img : IOImage) (t : ℤ) : IOImage :=
  { img with tolerance := t }

/-- `IOImage.wait_for_presence()`. -/
def IOImage.wait_for_presence (img : IOImage) : IOImage :=
  { img with wait_for := true }

/-- `IOImage.is_existing()` applied to the current screen-query outcome:
`try: box = pg.locateOnScreen(path); return True, box` on success, and
`except ImageNotFoundException: return False, None` when the library
raises because the image is absent.  One screen query either way. -/
def IOImage.is_existing (img : IOImage) (s : Option Box) :
    (Bool × Option Box) × List IOEvent :=
  match s with
  | some box => ((true, some box), [.screenQuery])
  | none => ((false, none), [.screenQuery])

/-- The fixed poll interval: `time.sleep(0.01)` / `time.sleep(1 / 100)`. -/
def interval : ℚ := 1 / 100

/-- The `timeout == -1` polling loop of `IOImage.run`, starting at query
index `k`: query the screen (`is_existing`); on a hit, move the pointer to
the centre and return `(True, box)` — the source guards the move with
`if self.place_mouse_over:`, which tests the bound method rather than the
`place_mouse` flag and is therefore always truthy, so the move happens
unconditionally; on a miss, sleep one interval and loop. -/
def pollNoTimeout (img : IOImage) (scr : ℕ → Option Box) :
    ℕ → ℕ → Option ((Bool × Option Box) × List IOEvent)
  | 0, _ => none
  | fuel + 1, k =>
    match scr k with
    | some box =>
      some ((true, some box), [.screenQuery, .moveTo box.center])
    | none =>
      (pollNoTimeout img scr fuel (k + 1)).map
        (fun r => (r.1, .screenQuery :: .sleep interval :: r.2))

/-- The timed polling loop of `IOImage.run`, starting at query index `k`:
sleep one interval first; if the elapsed time (`(k+1)` intervals after the
sleep of iteration `k`) has reached the timeout, return `(False, None)`
without querying; otherwise query the screen, and on a hit move the pointer
(same always-truthy `if self.place_mouse_over:` guard as above) and return
`(True, box)`. -/
def pollTimed (img : IOImage) (scr : ℕ → Option Box) :
    ℕ → ℕ → Option ((Bool × Option Box) × List IOEvent)
  | 0, _ => none
  | fuel + 1, k =>
    if img.timeout ≤ ((k : ℚ) + 1) * interval then
      some ((false, none), [.sleep interval])
    else
      match scr k with
      | some box =>
        some ((true, some box), [.sleep interval, .screenQuery, .moveTo box.center])
      | none =>
        (pollTimed img scr fuel (k + 1)).map
          (fun r => (r.1, .sleep interval :: .screenQuery :: r.2))

/-- `IOImage.run()`: polling (indefinite or timed) when `wait_for` is set,
otherwise a single `is_existing` check whose pointer move is correctly
guarded by the `place_mouse` flag. -/
def IOImage.run (img : IOImage) (scr : ℕ → Option Box) (fuel : ℕ) :
    Option ((Bool × Option Box) × List IOEvent) :=
  if img.wait_for then
    if img.timeout = -1 then pollNoTimeout img scr fuel 0
    else pollTimed img scr fuel 0
  else
    match scr 0 with
    | some box =>
      if img.place_mouse then
        some ((true, some box), [.screenQuery, .moveTo box.center])
      else
        some ((true, some box), [.screenQuery])
    | none => some ((false, none), [.screenQuery])

/-- One call into the underlying browser-driving library (playwright). -/
inductive WebEvent where
  /-- `sync_playwright().start()` -/
  | launchEngine
  /-- `playwright.chromium.launch(headless=...)` -/
  | launchBrowser (headless : Bool)
  /-- `browser.new_context()` -/
  | newContext
  /-- `context.new_page()` -/
  | newPage
  /-- `page.goto(url)` -/
  | goto (url : String)
  /-- `page.locator(selector)` -/
  | locate (selector : String)
  /-- `page.close()` -/
  | closePage
  /-- `context.close()` -/
  | closeContext
  /-- `browser.close()` -/
  | closeBrowser
  /-- `playwright.stop()` -/
  | stopEngine
deriving DecidableEq

/-- Teardown calls, i.e. the four resource releases `Web.close` performs. -/
def isTeardown : WebEvent → Bool
  | .closePage => true
  | .closeContext => true
  | .closeBrowser => true
  | .stopEngine => true
  | _ => false

/-- How the body of a `with` block ends: normally, or raising an exception. -/
inductive Outcome where
  | normal
  | exn (msg : String)
deriving DecidableEq

/-- `class Web` (`web/core.py`), with its constructor defaults. -/
structure Web where
  url : String
  headless : Bool := false
deriving DecidableEq

/-- `Web.enable_headless()`. -/
def Web.enable_headless (w : Web) : Web :=
  { w with headless := true }

/-- `Web.start()`: engine, browser, context, page, then navigate. -/
def Web.start (w : Web) : List WebEvent :=
  [.launchEngine, .launchBrowser w.headless, .newContext, .newPage, .goto w.url]

/-- `Web.close()`: page, then context, then browser, then engine —
reverse order of acquisition. -/
def Web.close (w : Web) : List WebEvent :=
  [.closePage, .closeContext, .closeBrowser, .stopEngine]

/-- The Python `with Web(url) as w:` statement: `__enter__` runs `start`,
the body runs (producing its own trace and either finishing normally or
raising), and `__exit__` — which Python invokes exactly once on every exit
path of the block — runs `close`; since `__exit__` returns `None`, a body
exception propagates unchanged. -/
def withWeb (w : Web) (body : List WebEvent × Outcome) :
    List WebEvent × Outcome :=
  (w.start ++ body.1 ++ w.close, body.2)

/-- `Web.find(selector, by)`: build the engine selector for each of the five
supported strategies and ask the page for a locator, else
`raise ValueError(f"`{by}` is unsupported")`.  A locator is modelled by the
selector string handed to `page.locator`. -/
def Web.find (w : Web) (selector : String) (by' : String) :
    Except String String :=
  if by' = "css" then .ok selector
  else if by' = "id" then .ok ("#" ++ selector)
  else if by' = "class" then .ok ("." ++ selector)
  else if by' = "xpath" then .ok ("xpath=" ++ selector)
  else if by' = "text" then .ok ("text=" ++ selector)
  else .error ("`" ++ by' ++ "` is unsupported")

/-- C8: `IOImage.is_existing` performs exactly one screen query and always
returns a normal boolean outcome — `(True, box)` when the image is found and
`(False, None)` when the library raises because it is absent; absence never
propagates as an error (the function is total). -/
theorem C8_is_existing_single_query_total (img : IOImage) (s : Option Box) :
    img.is_existing s = ((s.isSome, s), [.screenQuery]) ∧
    queryCount (img.is_existing s).2 = 1 := by
  cases s <;> simp [IOImage.is_existing, queryCount]

/-- C7: `IOPixel.set_rgb` succeeds and stores the triple exactly when all
three channels lie in `[0, 255]`, and fails its assertion otherwise. -/
theorem C7_set_rgb_range_check (p : IOPixel) (r g b : ℤ) :
    ((0 ≤ r ∧ r ≤ 255 ∧ 0 ≤ g ∧ g ≤ 255 ∧ 0 ≤ b ∧ b ≤ 255) →
      p.set_rgb r g b = .ok { p with rgb := some (r, g, b) }) ∧
    (¬(0 ≤ r ∧ r ≤ 255 ∧ 0 ≤ g ∧ g ≤ 255 ∧ 0 ≤ b ∧ b ≤ 255) →
      exOk (p.set_rgb r g b) = false) := by
  constructor
  · rintro ⟨h1, h2, h3, h4, h5, h6⟩
    simp [IOPixel.set_rgb, h1, h2, h3, h4, h5, h6]
  · intro h
    simp only [IOPixel.set_rgb]
    split_ifs with h1 h2 h3
    · exact absurd ⟨h1.1, h1.2, h2.1, h2.2, h3.1, h3.2⟩ h
    · simp [exOk]
    · simp [exOk]
    · simp [exOk]

/-- C7 witness: an in-range triple is stored; an out-of-range red channel
fails the check. -/
theorem C7_set_rgb_range_check_witness :
    IOPixel.set_rgb {} 10 20 30 = .ok { rgb := some (10, 20, 30) } ∧
    exOk (IOPixel.set_rgb {} 256 20 30) = false :=
  ⟨(C7_set_rgb_range_check {} 10 20 30).1 (by decide),
   (C7_set_rgb_range_check {} 256 20 30).2 (by decide)⟩

/-- C5: an `IOClick` configured with `repeat(3)` and `wait(0.5)` runs
exactly 3 click actions, each immediately preceded by a sleep of the
configured interval, so successive clicks are at least 0.5 apart. -/
theorem C5_three_clicks_spaced :
    ∃ c, IOClick.repeat {} 3 = .ok c ∧
      (c.wait (1 / 2)).run =
        [.sleep (1 / 2), .click none none "primary",
         .sleep (1 / 2), .click none none "primary",
         .sleep (1 / 2), .click none none "primary"] ∧
      clickCount ((c.wait (1 / 2)).run) = 3 ∧
      clicksWaited (1 / 2) none ((c.wait (1 / 2)).run) = true := by
  refine ⟨{ clicks := 3 }, rfl, ?_⟩
  have hrun : ((({ clicks := 3 } : IOClick)).wait (1 / 2)).run =
      [.sleep (1 / 2), .click none none "primary",
       .sleep (1 / 2), .click none none "primary",
       .sleep (1 / 2), .click none none "primary"] := by
    rw [IOClick.run, if_neg (by norm_num [IOClick.wait])]
    norm_num [IOClick.wait]
    rfl
  refine ⟨hrun, ?_, ?_⟩
  · rw [hrun]; rfl
  · rw [hrun]
    simp only [clicksWaited, Bool.and_eq_true, decide_eq_true_eq]
    norm_num

/-- C10: `IOClick.repeat` rejects exactly the count 0; any negative count
is accepted and stored, and a subsequent `run` with a nonzero
`interval_wait` performs zero clicks (Python `range` of a negative
integer is empty). -/
theorem C10_negative_count_accepted_zero_clicks (k : ℤ) (w : ℚ) :
    (exOk (IOClick.repeat {} k) = false ↔ k = 0) ∧
    (k < 0 → w ≠ 0 →
      ∃ c, IOClick.repeat {} k = .ok c ∧ c.clicks = k ∧
        clickCount ((c.wait w).run) = 0) := by
  constructor
  · rw [IOClick.repeat]
    split_ifs with h <;> simp [exOk, h]
  · intro hk hw
    refine ⟨{ clicks := k }, ?_, rfl, ?_⟩
    · rw [IOClick.repeat, if_neg (by omega)]
    · rw [IOClick.run, if_neg (by simpa [IOClick.wait] using hw)]
      simp [IOClick.wait, Int.toNat_of_nonpos (le_of_lt hk), clickLoop, clickCount]

/-- C10 witness: `repeat(-5)` is accepted and a run with interval 0.5
performs zero clicks. -/
theorem C10_negative_count_accepted_zero_clicks_witness :
    ∃ c, IOClick.repeat {} (-5) = .ok c ∧ c.clicks = -5 ∧
      clickCount ((c.wait (1 / 2)).run) = 0 :=
  (C10_negative_count_accepted_zero_clicks (-5) (1 / 2)).2 (by norm_num) (by norm_num)

/-- An `IOImage` in indefinite polling mode with `place_mouse` left unset. -/
def c1Image : IOImage :=
  { path := "ref.png", wait_for := true }

/-- C1 (code bug): in polling mode the pointer move is guarded by
`if self.place_mouse_over:` — the bound method, which is always truthy —
instead of the `place_mouse` flag, so with `place_mouse = False` and the
image found, both polling branches still emit a `moveTo` to the match's
centre; the claim says no move happens when the flag is unset. -/
theorem C1_polling_moves_pointer_despite_unset_flag :
    c1Image.place_mouse = false ∧
    c1Image.run (fun _ => some ⟨0, 0, 10, 10⟩) 1 =
      some ((true, some ⟨0, 0, 10, 10⟩), [.screenQuery, .moveTo (5, 5)]) ∧
    (c1Image.set_timeout 1).run (fun _ => some ⟨0, 0, 10, 10⟩) 1 =
      some ((true, some ⟨0, 0, 10, 10⟩),
        [.sleep interval, .screenQuery, .moveTo (5, 5)]) := by
  refine ⟨rfl, ?_, ?_⟩
  · rw [IOImage.run]
    norm_num [c1Image, pollNoTimeout, Box.center]
    decide
  · rw [IOImage.run]
    rw [if_pos (by norm_num [c1Image, IOImage.set_timeout])]
    rw [if_neg (by norm_num [c1Image, IOImage.set_timeout])]
    rw [pollTimed]
    rw [if_neg (by norm_num [c1Image, IOImage.set_timeout, interval])]
    norm_num [Box.center]
    decide

/-- C6: `Web.find` returns a locator exactly for the five supported selector
strategies and raises the unsupported-strategy `ValueError` for every other
strategy value. -/
theorem C6_find_supported_strategies (w : Web) (s b : String) :
    (exOk (Web.find w s b) = true ↔
      b = "xpath" ∨ b = "css" ∨ b = "id" ∨ b = "class" ∨ b = "text") ∧
    (¬(b = "xpath" ∨ b = "css" ∨ b = "id" ∨ b = "class" ∨ b = "text") →
      Web.find w s b = .error ("`" ++ b ++ "` is unsupported")) := by
  rw [Web.find]
  split_ifs with h1 h2 h3 h4 h5 <;>
    simp_all [exOk]

/-- C6 witness: a supported strategy yields a locator; an unsupported one
yields the unsupported-strategy error. -/
theorem C6_find_supported_strategies_witness :
    exOk (Web.find { url := "https://example.com" } "btn" "css") = true ∧
    Web.find { url := "https://example.com" } "btn" "name" =
      .error "`name` is unsupported" :=
  ⟨(C6_find_supported_strategies { url := "https://example.com" } "btn" "css").1.2
      (by simp),
   (C6_find_supported_strategies { url := "https://example.com" } "btn" "name").2
      (by simp)⟩

/-- C4: every scoped (`with`-block) use of `Web` performs each of the four
teardown calls exactly once, in reverse order of acquisition (page, context,
browser, engine) as the final calls of the session, on both the normal and
the exceptional exit path (the body's outcome — normal or a raised
exception — is preserved), provided the body itself performs no teardown
call. -/
theorem C4_scoped_teardown_once_in_order (w : Web) (body : List WebEvent × Outcome)
    (hbody : ∀ e ∈ body.1, isTeardown e = false) :
    (withWeb w body).1.count .closePage = 1 ∧
    (withWeb w body).1.count .closeContext = 1 ∧
    (withWeb w body).1.count .closeBrowser = 1 ∧
    (withWeb w body).1.count .stopEngine = 1 ∧
    (∃ pre, (withWeb w body).1 =
      pre ++ [.closePage, .closeContext, .closeBrowser, .stopEngine]) ∧
    (withWeb w body).2 = body.2 := by
  have hp : body.1.count WebEvent.closePage = 0 := by
    rw [List.count_eq_zero]
    intro hmem
    simpa [isTeardown] using hbody _ hmem
  have hc : body.1.count WebEvent.closeContext = 0 := by
    rw [List.count_eq_zero]
    intro hmem
    simpa [isTeardown] using hbody _ hmem
  have hb : body.1.count WebEvent.closeBrowser = 0 := by
    rw [List.count_eq_zero]
    intro hmem
    simpa [isTeardown] using hbody _ hmem
  have he : body.1.count WebEvent.stopEngine = 0 := by
    rw [List.count_eq_zero]
    intro hmem
    simpa [isTeardown] using hbody _ hmem
  refine ⟨?_, ?_, ?_, ?_, ⟨w.start ++ body.1, by simp [withWeb, Web.close]⟩, rfl⟩ <;>
    simp [withWeb, Web.start, Web.close, List.count_append, hp, hc, hb, he,
      List.count_cons]

/-- C4 witness: a session over example.com whose body raises an exception
after one navigation still tears down page, context, browser, engine,
each exactly once and in that order. -/
theorem C4_scoped_teardown_once_in_order_witness :
    (withWeb { url := "https://example.com" } ([.goto "next"], .exn "boom")).1.count
        .closePage = 1 ∧
    (withWeb { url := "https://example.com" } ([.goto "next"], .exn "boom")).1.count
        .closeContext = 1 ∧
    (withWeb { url := "https://example.com" } ([.goto "next"], .exn "boom")).1.count
        .closeBrowser = 1 ∧
    (withWeb { url := "https://example.com" } ([.goto "next"], .exn "boom")).1.count
        .stopEngine = 1 ∧
    (∃ pre, (withWeb { url := "https://example.com" } ([.goto "next"], .exn "boom")).1 =
      pre ++ [.closePage, .closeContext, .closeBrowser, .stopEngine]) ∧
    (withWeb { url := "https://example.com" } ([.goto "next"], .exn "boom")).2 =
      .exn "boom" :=
  C4_scoped_teardown_once_in_order { url := "https://example.com" }
    ([.goto "next"], .exn "boom")
    (by intro e he; rw [List.mem_singleton] at he; subst he; rfl)

/-- In the timed polling loop started at query index `k` (so `k` intervals
have already elapsed), if the screen never shows the image strictly before
the timeout and the fuel suffices to reach the timeout, the loop returns
`(False, None)` and its cumulative elapsed time lands in
`[timeout, timeout + interval)` relative to the start of the run. -/
theorem pollTimed_not_found (img : IOImage) (scr : ℕ → Option Box)
    (hscr : ∀ j : ℕ, ((j : ℚ) + 1) * interval < img.timeout → scr j = none) :
    ∀ fuel k : ℕ, (k : ℚ) * interval < img.timeout →
      img.timeout ≤ ((k : ℚ) + (fuel : ℚ)) * interval →
      ∃ tr, pollTimed img scr fuel k = some ((false, none), tr) ∧
        img.timeout ≤ (k : ℚ) * interval + elapsed tr ∧
        (k : ℚ) * interval + elapsed tr < img.timeout + interval := by
  intro fuel
  induction fuel with
  | zero =>
    intro k hk hle
    exfalso
    push_cast at hle
    rw [interval] at hk hle
    linarith
  | succ n ih =>
    intro k hk hle
    rw [pollTimed]
    by_cases hguard : img.timeout ≤ ((k : ℚ) + 1) * interval
    · rw [if_pos hguard]
      refine ⟨[.sleep interval], rfl, ?_, ?_⟩
      · simp only [elapsed]
        rw [interval] at hguard ⊢
        linarith
      · simp only [elapsed]
        rw [interval] at hk ⊢
        linarith
    · rw [if_neg hguard]
      push_neg at hguard
      rw [hscr k hguard]
      obtain ⟨tr, htr, hlo, hhi⟩ := ih (k + 1)
        (by push_cast; rw [interval] at hguard ⊢; linarith)
        (by push_cast at hle ⊢; rw [interval] at hle ⊢; linarith)
      rw [htr]
      refine ⟨.sleep interval :: .screenQuery :: tr, rfl, ?_, ?_⟩
      · simp only [elapsed]
        push_cast at hlo
        rw [interval] at hlo ⊢
        linarith
      · simp only [elapsed]
        push_cast at hhi
        rw [interval] at hhi ⊢
        linarith

/-- C2: in polling mode with a configured timeout `t > 0`, if the image is
not found strictly before the elapsed time reaches `t`, the run returns
`(False, None)`; the expiry check `elapsed >= timeout` runs before each
query, so the tie `elapsed == t` also resolves to not-found. -/
theorem C2_timed_poll_timeout_not_found (img : IOImage) (t : ℚ)
    (scr : ℕ → Option Box) (hwait : img.wait_for = true) (ht : img.timeout = t)
    (hpos : 0 < t)
    (hscr : ∀ j : ℕ, ((j : ℚ) + 1) * interval < t → scr j = none) :
    ∃ fuel tr, img.run scr fuel = some ((false, none), tr) := by
  have hne : img.timeout ≠ -1 := by
    rw [ht]
    intro h
    rw [h] at hpos
    norm_num at hpos
  refine ⟨(⌈t * 100⌉).toNat, ?_⟩
  rw [IOImage.run, if_pos hwait, if_neg hne]
  have h1 : (t * 100 : ℚ) ≤ ((⌈t * 100⌉ : ℤ) : ℚ) := Int.le_ceil _
  have h2 : ((⌈t * 100⌉ : ℤ) : ℚ) ≤ (((⌈t * 100⌉).toNat : ℕ) : ℚ) := by
    exact_mod_cast Int.self_le_toNat _
  obtain ⟨tr, htr, _, _⟩ := pollTimed_not_found img scr
    (by intro j hj; rw [ht] at hj; exact hscr j hj)
    (⌈t * 100⌉).toNat 0
    (by rw [ht]; simpa using hpos)
    (by rw [ht, interval]; push_cast; linarith)
  exact ⟨tr, htr⟩

/-- C2 witness (the tie case): timeout equal to one poll interval, image
present on screen the entire time — elapsed reaches the timeout exactly at
the first check, which resolves to not-found. -/
theorem C2_timed_poll_timeout_not_found_witness :
    ∃ fuel tr,
      ({ path := "ref.png", wait_for := true, timeout := interval } : IOImage).run
        (fun _ => some ⟨0, 0, 2, 2⟩) fuel = some ((false, none), tr) :=
  C2_timed_poll_timeout_not_found
    { path := "ref.png", wait_for := true, timeout := interval } interval
    (fun _ => some ⟨0, 0, 2, 2⟩) rfl rfl (by norm_num [interval])
    (by
      intro j hj
      exfalso
      rw [interval] at hj
      have h0 : (0 : ℚ) ≤ (j : ℚ) := Nat.cast_nonneg j
      linarith)

/-- C3: for every timeout `t > 0` and an image that never appears, the timed
poll reports not-found with cumulative elapsed time no earlier than `t`
and no later than `t` plus one poll interval. -/
theorem C3_timed_poll_elapsed_bounds (img : IOImage) (t : ℚ)
    (scr : ℕ → Option Box) (hwait : img.wait_for = true) (ht : img.timeout = t)
    (hpos : 0 < t) (hscr : ∀ j : ℕ, scr j = none) :
    ∃ fuel tr, img.run scr fuel = some ((false, none), tr) ∧
      t ≤ elapsed tr ∧ elapsed tr ≤ t + interval := by
  have hne : img.timeout ≠ -1 := by
    rw [ht]
    intro h
    rw [h] at hpos
    norm_num at hpos
  refine ⟨(⌈t * 100⌉).toNat, ?_⟩
  rw [IOImage.run, if_pos hwait, if_neg hne]
  have h1 : (t * 100 : ℚ) ≤ ((⌈t * 100⌉ : ℤ) : ℚ) := Int.le_ceil _
  have h2 : ((⌈t * 100⌉ : ℤ) : ℚ) ≤ (((⌈t * 100⌉).toNat : ℕ) : ℚ) := by
    exact_mod_cast Int.self_le_toNat _
  obtain ⟨tr, htr, hlo, hhi⟩ := pollTimed_not_found img scr
    (fun j _ => hscr j)
    (⌈t * 100⌉).toNat 0
    (by rw [ht]; simpa using hpos)
    (by rw [ht, interval]; push_cast; linarith)
  rw [ht] at hlo hhi
  simp only [Nat.cast_zero, zero_mul, zero_add] at hlo hhi
  exact ⟨tr, htr, hlo, le_of_lt hhi⟩

/-- C3 witness: timeout 1/50 (two intervals), image never on screen. -/
theorem C3_timed_poll_elapsed_bounds_witness :
    ∃ fuel tr,
      ({ path := "ref.png", wait_for := true, timeout := 1 / 50 } : IOImage).run
        (fun _ => none) fuel = some ((false, none), tr) ∧
      1 / 50 ≤ elapsed tr ∧ elapsed tr ≤ 1 / 50 + interval :=
  C3_timed_poll_elapsed_bounds
    { path := "ref.png", wait_for := true, timeout := 1 / 50 } (1 / 50)
    (fun _ => none) rfl rfl (by norm_num) (fun _ => rfl)

/-- C9: in the timed polling branch one interval sleep and the expiry check
precede every screen query, so a configured timeout of at most one poll
interval returns `(False, None)` after a single sleep and zero screen
queries — whatever the screen shows, and for any sufficient fuel. -/
theorem C9_small_timeout_never_queries (img : IOImage) (scr : ℕ → Option Box)
    (hwait : img.wait_for = true) (hne : img.timeout ≠ -1)
    (hsmall : img.timeout ≤ interval) :
    ∀ fuel : ℕ, img.run scr (fuel + 1) = some ((false, none), [.sleep interval]) ∧
      queryCount [(.sleep interval : IOEvent)] = 0 := by
  intro fuel
  refine ⟨?_, rfl⟩
  rw [IOImage.run, if_pos hwait, if_neg hne, pollTimed, if_pos (by push_cast; simpa using hsmall)]

/-- C9 witness: timeout 1/200 (half an interval), image present on screen
the entire time, yet the run returns not-found without a single query. -/
theorem C9_small_timeout_never_queries_witness :
    ({ path := "ref.png", wait_for := true, timeout := 1 / 200 } : IOImage).run
      (fun _ => some ⟨0, 0, 2, 2⟩) 1 = some ((false, none), [.sleep interval]) ∧
    queryCount [(.sleep interval : IOEvent)] = 0 :=
  C9_small_timeout_never_queries
    { path := "ref.png", wait_for := true, timeout := 1 / 200 }
    (fun _ => some ⟨0, 0, 2, 2⟩) rfl (by norm_num) (by norm_num [interval]) 0
